import Mathlib

/-!
Verification development for the `MemoryAccess` session coordinator of
`j1939/memory_access.py`.

The coordinator is shallowly embedded: the Python object's mutable fields
become a Lean structure, each method becomes a pure function returning the
updated structure together with a trace of the externally visible side
effects it performed (Bus Endpoint subscription changes, Responder parser
invocations, busy marks, notification-callback invocations, Query Builder
calls).  Every trace entry is tagged with the value of `self.state` at the
moment the side effect executed, which lets ordering-and-state claims be
stated directly.

The two external collaborators are abstract:
  * the Responder (`self.server`, a `j1939.DM14Server`) is a state type `σ`
    together with the operations the coordinator calls on it (`ServerOps`);
  * the Query Builder (`self.query`, a `j1939.Dm14Query`) is a pair of
    functions that either return a result or fail with a protocol error
    (`QueryOps`), matching the fact that `Dm14Query.read`/`write` may raise.

Python exceptions are modelled by the `Outcome` type: a method that raises
still returns the object state as mutated up to the raise point, exactly as
in Python, where mutations to `self` performed before an exception persist.
-/

/-- The `DMState` enumeration of `memory_access.py`. -/
inductive DMState where
  | IDLE
  | REQUEST_STARTED
  | WAIT_RESPONSE
  | WAIT_QUERY
  deriving DecidableEq, Repr

/-- Shape of an inbound bus message as delivered to `_listen_for_dm14`:
`(priority, pgn, sa, timestamp, data)`. -/
structure Msg where
  priority : Nat
  pgn : Nat
  sa : Nat
  timestamp : Nat
  data : List Nat
  deriving DecidableEq, Repr

/-- Externally visible side effects performed by the coordinator. -/
inductive Event where
  | unsubscribe
  | parse_dm14 (msg : Msg)
  | set_busy (b : Bool)
  | notify
  | server_respond (proceed : Bool) (data : List Int) (error : Nat) (edcp : Nat)
  | query_read (dest_address direct address object_count object_byte_size : Nat)
      (signed return_raw_bytes : Bool)
  | query_write (dest_address direct address : Nat) (values : List Int)
      (object_byte_size : Nat)
  deriving DecidableEq, Repr

/-- A trace entry: the coordinator's `self.state` at the moment the side
effect executed, paired with the side effect. -/
abbrev TraceEntry := DMState × Event

/-- A Python exception escaping a coordinator method: either the
`RuntimeWarning("Process already Running")` busy error raised by `read`, or
a protocol error raised inside the Query Builder and propagated unchanged. -/
inductive PyError where
  | runtimeWarning (msg : String)
  | queryError (msg : String)
  deriving DecidableEq, Repr

/-- Result of a call: normal return, or an exception propagating out.  The
mutated object state is returned alongside in either case, as in Python. -/
inductive Outcome (α : Type) where
  | ok (a : α)
  | raised (e : PyError)
  deriving DecidableEq, Repr

/-- Abstract interface of the Responder (`j1939.DM14Server`), the server
role.  `state_eq_send_proceed s` models the Python test
`self.server.state == j1939.ResponseState.SEND_PROCEED`. -/
structure ServerOps (σ : Type) where
  parse_dm14 : σ → Msg → σ
  set_busy : σ → Bool → σ
  respond : σ → Bool → List Int → Nat → Nat → List Int
  state_eq_send_proceed : σ → Bool

/-- Abstract interface of the Query Builder (`j1939.Dm14Query`), the client
role.  Arguments follow the Python signatures
`read(dest_address, direct, address, object_count, object_byte_size,
signed, return_raw_bytes)` and
`write(dest_address, direct, address, values, object_byte_size)`; an
`Except.error` models a protocol exception raised during the exchange. -/
structure QueryOps where
  read : Nat → Nat → Nat → Nat → Nat → Bool → Bool → Except String (List Int)
  write : Nat → Nat → Nat → List Int → Nat → Except String Unit

/-- The mutable fields of a `MemoryAccess` object.  `σ` is the Responder's
internal state.  The three callback slots are modelled by whether they are
set (`is not None`), which is all the coordinator logic inspects.
`address` is `Option`al because Python only creates the attribute inside
`read`/`write`. -/
structure MemoryAccess (σ : Type) where
  state : DMState
  subscribed : Bool
  seed_security : Bool
  notify_query_received : Bool
  seed_key_valid : Bool
  proceed_function : Bool
  address : Option Nat
  server : σ
  deriving DecidableEq, Repr

/-- `MemoryAccess.__init__`: subscribes `_listen_for_dm14` to the Bus
Endpoint, sets `state = IDLE`, `seed_security = False`, and leaves the
three callback slots `None`. -/
def MemoryAccess.init (server0 : σ) : MemoryAccess σ where
  state := DMState.IDLE
  subscribed := true
  seed_security := false
  notify_query_received := false
  seed_key_valid := false
  proceed_function := false
  address := none
  server := server0

/-- `MemoryAccess._listen_for_dm14`, the inbound dispatch callback. -/
def MemoryAccess.listen_for_dm14 (P : ServerOps σ) (m : MemoryAccess σ)
    (msg : Msg) : MemoryAccess σ × List TraceEntry :=
  match m.state with
  | DMState.IDLE =>
    let m1 := { m with state := DMState.REQUEST_STARTED }
    let m2 := { m1 with server := P.parse_dm14 m1.server msg }
    let t1 := [(m1.state, Event.parse_dm14 msg)]
    if m2.seed_security = false then
      let m3 := { m2 with subscribed := false }
      let t2 := t1 ++ [(m2.state, Event.unsubscribe)]
      if m3.notify_query_received then
        (m3, t2 ++ [(m3.state, Event.notify)])
      else
        (m3, t2)
    else
      (m2, t1)
  | DMState.REQUEST_STARTED =>
    let m1 := { m with server := P.parse_dm14 m.server msg }
    let t1 := [(m.state, Event.parse_dm14 msg)]
    if P.state_eq_send_proceed m1.server then
      let m2 := { m1 with state := DMState.WAIT_RESPONSE }
      if m2.notify_query_received then
        (m2, t1 ++ [(m2.state, Event.notify)])
      else
        (m2, t1)
    else
      (m1, t1)
  | DMState.WAIT_QUERY =>
    let m1 := { m with server := P.set_busy m.server true }
    let m2 := { m1 with server := P.parse_dm14 m1.server msg }
    let m3 := { m2 with server := P.set_busy m2.server false }
    (m3,
      [(m.state, Event.set_busy true), (m1.state, Event.parse_dm14 msg),
        (m2.state, Event.set_busy false)])
  | DMState.WAIT_RESPONSE =>
    (m, [])

/-- `MemoryAccess.respond(proceed, data=None, error=0xFFFFFF, edcp=0xFF)`:
replaces a `None` data argument with `[]`, unsubscribes from the Bus
Endpoint, forces `state = IDLE`, and returns
`self.server.respond(proceed, data, error, edcp)`. -/
def MemoryAccess.respond (P : ServerOps σ) (m : MemoryAccess σ)
    (proceed : Bool) (data : Option (List Int)) (error : Nat) (edcp : Nat) :
    MemoryAccess σ × List TraceEntry × List Int :=
  let d := data.getD []
  let m1 := { m with subscribed := false }
  let m2 := { m1 with state := DMState.IDLE }
  (m2,
    [(m.state, Event.unsubscribe),
      (m2.state, Event.server_respond proceed d error edcp)],
    P.respond m2.server proceed d error edcp)

/-- `respond` called with all optional arguments omitted: the Python
defaults are `data=None`, `error=0xFFFFFF`, `edcp=0xFF`. -/
def MemoryAccess.respond_defaults (P : ServerOps σ) (m : MemoryAccess σ)
    (proceed : Bool) : MemoryAccess σ × List TraceEntry × List Int :=
  MemoryAccess.respond P m proceed none 0xFFFFFF 0xFF

/-- `MemoryAccess.read`: from `IDLE`, sets `state = WAIT_QUERY`, records
`self.address = dest_address`, calls `self.query.read` with all seven
arguments, then on normal return sets `state = IDLE` and returns the data.
There is no `try/finally`: if `query.read` raises, the exception propagates
with `state` still `WAIT_QUERY`.  From any other state it raises
`RuntimeWarning("Process already Running")` without mutating anything. -/
def MemoryAccess.read (Q : QueryOps) (m : MemoryAccess σ)
    (dest_address direct address object_count object_byte_size : Nat)
    (signed return_raw_bytes : Bool) :
    MemoryAccess σ × List TraceEntry × Outcome (List Int) :=
  if m.state = DMState.IDLE then
    let m1 := { m with state := DMState.WAIT_QUERY }
    let m2 := { m1 with address := some dest_address }
    let ev : TraceEntry :=
      (m2.state, Event.query_read dest_address direct address object_count
        object_byte_size signed return_raw_bytes)
    match Q.read dest_address direct address object_count object_byte_size
        signed return_raw_bytes with
    | Except.ok data =>
      ({ m2 with state := DMState.IDLE }, [ev], Outcome.ok data)
    | Except.error e =>
      (m2, [ev], Outcome.raised (PyError.queryError e))
  else
    (m, [], Outcome.raised (PyError.runtimeWarning "Process already Running"))

/-- `MemoryAccess.write`: from `IDLE`, sets `state = WAIT_QUERY`, records
`self.address = dest_address`, calls `self.query.write`, then on normal
return sets `state = IDLE`; as in `read` there is no `try/finally`, so a
Query Builder exception propagates with `state` still `WAIT_QUERY`.  The
method has no `else` branch: called from any other state it does nothing
and returns `None` normally. -/
def MemoryAccess.write (Q : QueryOps) (m : MemoryAccess σ)
    (dest_address direct address : Nat) (values : List Int)
    (object_byte_size : Nat) :
    MemoryAccess σ × List TraceEntry × Outcome Unit :=
  if m.state = DMState.IDLE then
    let m1 := { m with state := DMState.WAIT_QUERY }
    let m2 := { m1 with address := some dest_address }
    let ev : TraceEntry :=
      (m2.state, Event.query_write dest_address direct address values
        object_byte_size)
    match Q.write dest_address direct address values object_byte_size with
    | Except.ok _ =>
      ({ m2 with state := DMState.IDLE }, [ev], Outcome.ok ())
    | Except.error e =>
      (m2, [ev], Outcome.raised (PyError.queryError e))
  else
    (m, [], Outcome.ok ())

/-- `MemoryAccess.set_seed_key_algorithm`: sets `seed_security = True` (and
forwards the algorithm to the Query Builder and the Responder, which is
outside the coordinator state modelled here). -/
def MemoryAccess.set_seed_key_algorithm (m : MemoryAccess σ) :
    MemoryAccess σ :=
  { m with seed_security := true }

/-- `MemoryAccess.set_notify`: installs the `on_query_received` callback. -/
def MemoryAccess.set_notify (m : MemoryAccess σ) : MemoryAccess σ :=
  { m with notify_query_received := true }

/-! ### Concrete fixtures used by witnesses and counterexamples -/

/-- A trivial Responder over a unit state whose `state` always compares
equal to `SEND_PROCEED`. -/
def serverOpsTrue : ServerOps Unit where
  parse_dm14 := fun _ _ => ()
  set_busy := fun _ _ => ()
  respond := fun _ _ d _ _ => d
  state_eq_send_proceed := fun _ => true

/-- A trivial Responder over a unit state whose `state` never compares
equal to `SEND_PROCEED`. -/
def serverOpsFalse : ServerOps Unit where
  parse_dm14 := fun _ _ => ()
  set_busy := fun _ _ => ()
  respond := fun _ _ d _ _ => d
  state_eq_send_proceed := fun _ => false

/-- A Query Builder whose `read` succeeds with `[10, 20, 30, 40]` and whose
`write` succeeds. -/
def queryOpsOk : QueryOps where
  read := fun _ _ _ _ _ _ _ => Except.ok [10, 20, 30, 40]
  write := fun _ _ _ _ _ => Except.ok ()

/-- A Query Builder whose exchanges fail with a protocol error
(modelling a timeout raised inside `Dm14Query`). -/
def queryOpsFail : QueryOps where
  read := fun _ _ _ _ _ _ _ => Except.error "timeout"
  write := fun _ _ _ _ _ => Except.error "timeout"

/-- A sample inbound message. -/
def msg0 : Msg where
  priority := 6
  pgn := 0xD900
  sa := 0x20
  timestamp := 0
  data := [0, 1, 2, 3]

/-- A freshly constructed coordinator (unit Responder state), moved to
state `s`. -/
def maAt (s : DMState) : MemoryAccess Unit :=
  { MemoryAccess.init () with state := s }

/-- A coordinator in state `s` with security enabled and the notify
callback installed. -/
def maSecAt (s : DMState) : MemoryAccess Unit :=
  { MemoryAccess.init () with
      state := s, seed_security := true, notify_query_received := true }

/-! ### Claim theorems -/

/-- C3: for every state other than `Idle`, `read` raises the busy error
`RuntimeWarning("Process already Running")`, performs no side effect at
all (empty trace, so the Query Builder is not invoked), and returns the
coordinator unchanged. -/
theorem read_busy_raises (Q : QueryOps) (m : MemoryAccess σ)
    (h : m.state ≠ DMState.IDLE)
    (dest_address direct address object_count object_byte_size : Nat)
    (signed return_raw_bytes : Bool) :
    MemoryAccess.read Q m dest_address direct address object_count
        object_byte_size signed return_raw_bytes =
      (m, [], Outcome.raised (PyError.runtimeWarning
        "Process already Running")) := by
  simp [MemoryAccess.read, h]

/-- Witness for C3: a coordinator in `WAIT_QUERY` rejects `read`. -/
theorem read_busy_raises_witness :
    MemoryAccess.read queryOpsOk (maAt DMState.WAIT_QUERY)
        0x20 0 0x1000 4 2 false false =
      (maAt DMState.WAIT_QUERY, [], Outcome.raised (PyError.runtimeWarning
        "Process already Running")) :=
  read_busy_raises queryOpsOk (maAt DMState.WAIT_QUERY) (by decide)
    0x20 0 0x1000 4 2 false false

/-- C1 counterexample: `write` called while the state is `WAIT_QUERY`
(`WaitingOnLocalQuery`) does NOT raise the busy error — it returns
normally (`Outcome.ok ()`), with no side effect and the state unchanged,
because `MemoryAccess.write` has no `else` branch raising
`RuntimeWarning`, unlike `read`. -/
theorem write_nonidle_no_busy_error_cex :
    MemoryAccess.write queryOpsOk (maAt DMState.WAIT_QUERY)
        0x20 0 0x1000 [1, 2] 1 =
      (maAt DMState.WAIT_QUERY, [], Outcome.ok ()) ∧
    (MemoryAccess.write queryOpsOk (maAt DMState.WAIT_QUERY)
        0x20 0 0x1000 [1, 2] 1).2.2 ≠
      Outcome.raised (PyError.runtimeWarning "Process already Running") := by
  constructor
  · rfl
  · decide

/-- C1 amended: for every state other than `Idle`, calling `write` leaves
the session state (indeed the whole coordinator) unchanged and performs no
side effect, but it does not raise the busy error — it silently returns
`None` (only `read` raises `RuntimeWarning("Process already Running")`). -/
theorem write_nonidle_silent (Q : QueryOps) (m : MemoryAccess σ)
    (h : m.state ≠ DMState.IDLE)
    (dest_address direct address : Nat) (values : List Int)
    (object_byte_size : Nat) :
    MemoryAccess.write Q m dest_address direct address values
        object_byte_size = (m, [], Outcome.ok ()) := by
  simp [MemoryAccess.write, h]

/-- Witness for the amended C1: `write` from `WAIT_QUERY` is a silent
no-op. -/
theorem write_nonidle_silent_witness :
    MemoryAccess.write queryOpsOk (maAt DMState.WAIT_QUERY)
        0x30 0 0x2000 [7] 1 =
      (maAt DMState.WAIT_QUERY, [], Outcome.ok ()) :=
  write_nonidle_silent queryOpsOk (maAt DMState.WAIT_QUERY) (by decide)
    0x30 0 0x2000 [7] 1

/-- C2 counterexample: a `read` started from `Idle` with a failing Query
Builder propagates the error but leaves the session state stuck at
`WAIT_QUERY` (`WaitingOnLocalQuery`), not `Idle` — there is no
`try/finally` around `self.query.read` in `MemoryAccess.read`. -/
theorem read_failed_leaks_wait_query_cex :
    (MemoryAccess.read queryOpsFail (maAt DMState.IDLE)
        0x20 0 0x1000 4 2 false false).1.state = DMState.WAIT_QUERY ∧
    (MemoryAccess.read queryOpsFail (maAt DMState.IDLE)
        0x20 0 0x1000 4 2 false false).2.2 =
      Outcome.raised (PyError.queryError "timeout") := by
  constructor
  · rfl
  · rfl

/-- C2 amended: for a `read` or `write` started from `Idle`, the final
session state is `Idle` exactly when the Query Builder's exchange returns
normally; when the exchange fails, the error is propagated to the caller
but the state remains `WAIT_QUERY` (a leaked `WaitingOnLocalQuery`). -/
theorem read_write_final_state (Q : QueryOps) (m : MemoryAccess σ)
    (h : m.state = DMState.IDLE)
    (dest_address direct address object_count object_byte_size : Nat)
    (signed return_raw_bytes : Bool) (values : List Int) :
    ((MemoryAccess.read Q m dest_address direct address object_count
        object_byte_size signed return_raw_bytes).1.state =
      match Q.read dest_address direct address object_count
          object_byte_size signed return_raw_bytes with
      | Except.ok _ => DMState.IDLE
      | Except.error _ => DMState.WAIT_QUERY) ∧
    ((MemoryAccess.write Q m dest_address direct address values
        object_byte_size).1.state =
      match Q.write dest_address direct address values object_byte_size with
      | Except.ok _ => DMState.IDLE
      | Except.error _ => DMState.WAIT_QUERY) := by
  constructor
  · simp only [MemoryAccess.read, h, if_pos]
    cases Q.read dest_address direct address object_count object_byte_size
        signed return_raw_bytes <;> rfl
  · simp only [MemoryAccess.write, h, if_pos]
    cases Q.write dest_address direct address values object_byte_size <;> rfl

/-- Witness for the amended C2: with a failing Query Builder, both `read`
and `write` started from `Idle` end in `WAIT_QUERY`. -/
theorem read_write_final_state_witness :
    (MemoryAccess.read queryOpsFail (maAt DMState.IDLE)
        0x20 0 0x1000 4 2 false false).1.state = DMState.WAIT_QUERY ∧
    (MemoryAccess.write queryOpsFail (maAt DMState.IDLE)
        0x20 0 0x1000 [1] 1).1.state = DMState.WAIT_QUERY := by
  have h := read_write_final_state queryOpsFail (maAt DMState.IDLE) rfl
    0x20 0 0x1000 4 2 false false [1]
  exact h

/-- C4: in every session state and for every argument combination,
`respond` unsubscribes from the Bus Endpoint, forces the state to `Idle`,
and delegates to the Responder's `respond` with exactly the given
parameters (a `none` data argument becoming the empty list); the
omitted-argument form `respond_defaults` is the call with `data = none`
(hence the empty list), `error = 0xFFFFFF`, `edcp = 0xFF`. -/
theorem respond_resets_and_delegates (P : ServerOps σ) (m : MemoryAccess σ)
    (proceed : Bool) (data : Option (List Int)) (error edcp : Nat) :
    (MemoryAccess.respond P m proceed data error edcp).1.subscribed = false ∧
    (MemoryAccess.respond P m proceed data error edcp).1.state =
      DMState.IDLE ∧
    (MemoryAccess.respond P m proceed data error edcp).2.2 =
      P.respond m.server proceed (data.getD []) error edcp ∧
    (MemoryAccess.respond P m proceed data error edcp).2.1 =
      [(m.state, Event.unsubscribe),
        (DMState.IDLE,
          Event.server_respond proceed (data.getD []) error edcp)] ∧
    MemoryAccess.respond_defaults P m proceed =
      MemoryAccess.respond P m proceed none 0xFFFFFF 0xFF := by
  refine ⟨rfl, rfl, rfl, rfl, rfl⟩

/-- C5: with security disabled, an inbound message delivered while `Idle`
moves the state to `REQUEST_STARTED`, forwards the message to the
Responder's parser, unsubscribes from the Bus Endpoint, and invokes the
notify callback exactly once when it is set and never when it is unset. -/
theorem listen_idle_unsecured (P : ServerOps σ) (m : MemoryAccess σ)
    (msg : Msg) (h1 : m.state = DMState.IDLE)
    (h2 : m.seed_security = false) :
    (MemoryAccess.listen_for_dm14 P m msg).1.state =
      DMState.REQUEST_STARTED ∧
    (MemoryAccess.listen_for_dm14 P m msg).1.subscribed = false ∧
    (MemoryAccess.listen_for_dm14 P m msg).1.server =
      P.parse_dm14 m.server msg ∧
    (MemoryAccess.listen_for_dm14 P m msg).2 =
      [(DMState.REQUEST_STARTED, Event.parse_dm14 msg),
        (DMState.REQUEST_STARTED, Event.unsubscribe)] ++
      (if m.notify_query_received then
        [(DMState.REQUEST_STARTED, Event.notify)] else []) ∧
    ((MemoryAccess.listen_for_dm14 P m msg).2.map Prod.snd).count
        Event.notify = (if m.notify_query_received then 1 else 0) := by
  cases hn : m.notify_query_received <;>
    simp [MemoryAccess.listen_for_dm14, h1, h2, hn, List.count_cons]

/-- Witness for C5: a fresh coordinator with the notify callback installed
receives `msg0`; one notify invocation is traced after unsubscription. -/
theorem listen_idle_unsecured_witness :
    (MemoryAccess.listen_for_dm14 serverOpsFalse
        (MemoryAccess.set_notify (MemoryAccess.init ())) msg0).2 =
      [(DMState.REQUEST_STARTED, Event.parse_dm14 msg0),
        (DMState.REQUEST_STARTED, Event.unsubscribe)] ++
      [(DMState.REQUEST_STARTED, Event.notify)] := by
  have h := listen_idle_unsecured serverOpsFalse
    (MemoryAccess.set_notify (MemoryAccess.init ())) msg0 rfl rfl
  simpa using h.2.2.2.1

/-- C6: with security enabled, the first inbound message in `Idle` leaves
the subscription untouched (only the parse is traced) and moves to
`REQUEST_STARTED`; from `REQUEST_STARTED` the coordinator enters
`WAIT_RESPONSE` (`WaitingForDecision`) precisely when, after the forwarded
parse, the Responder's state compares equal to `SEND_PROCEED` — and the
notify callback fires in `WAIT_RESPONSE` precisely in that case with the
callback set; from `Idle` or `WAIT_QUERY` the dispatch never ends in
`WAIT_RESPONSE`. -/
theorem listen_secured_decision (P : ServerOps σ) (m : MemoryAccess σ)
    (msg : Msg) :
    (m.state = DMState.IDLE → m.seed_security = true →
      (MemoryAccess.listen_for_dm14 P m msg).1.subscribed = m.subscribed ∧
      (MemoryAccess.listen_for_dm14 P m msg).1.state =
        DMState.REQUEST_STARTED ∧
      (MemoryAccess.listen_for_dm14 P m msg).2 =
        [(DMState.REQUEST_STARTED, Event.parse_dm14 msg)]) ∧
    (m.state = DMState.REQUEST_STARTED →
      ((MemoryAccess.listen_for_dm14 P m msg).1.state =
          DMState.WAIT_RESPONSE ↔
        P.state_eq_send_proceed (P.parse_dm14 m.server msg) = true) ∧
      ((DMState.WAIT_RESPONSE, Event.notify) ∈
          (MemoryAccess.listen_for_dm14 P m msg).2 ↔
        (P.state_eq_send_proceed (P.parse_dm14 m.server msg) = true ∧
          m.notify_query_received = true))) ∧
    (m.state = DMState.IDLE ∨ m.state = DMState.WAIT_QUERY →
      (MemoryAccess.listen_for_dm14 P m msg).1.state ≠
        DMState.WAIT_RESPONSE) := by
  refine ⟨?_, ?_, ?_⟩
  · intro h1 h2
    simp [MemoryAccess.listen_for_dm14, h1, h2]
  · intro h1
    cases hp : P.state_eq_send_proceed (P.parse_dm14 m.server msg) <;>
      cases hn : m.notify_query_received <;>
        simp [MemoryAccess.listen_for_dm14, h1, hp, hn]
  · rintro (h | h)
    · cases hs : m.seed_security <;> cases hn : m.notify_query_received <;>
        simp [MemoryAccess.listen_for_dm14, h, hs, hn]
    · simp [MemoryAccess.listen_for_dm14, h]

/-- Witness for C6: with security on, an `Idle` coordinator stays
subscribed after the first message, and a `REQUEST_STARTED` coordinator
whose Responder reports `SEND_PROCEED` moves to `WAIT_RESPONSE`. -/
theorem listen_secured_decision_witness :
    (MemoryAccess.listen_for_dm14 serverOpsTrue (maSecAt DMState.IDLE)
        msg0).1.subscribed = (maSecAt DMState.IDLE).subscribed ∧
    (MemoryAccess.listen_for_dm14 serverOpsTrue
        (maSecAt DMState.REQUEST_STARTED) msg0).1.state =
      DMState.WAIT_RESPONSE := by
  refine ⟨((listen_secured_decision serverOpsTrue (maSecAt DMState.IDLE)
    msg0).1 rfl rfl).1, ?_⟩
  exact ((listen_secured_decision serverOpsTrue
    (maSecAt DMState.REQUEST_STARTED) msg0).2.1 rfl).1.mpr rfl

/-- C7: an inbound message delivered while the state is `WAIT_QUERY`
(`WaitingOnLocalQuery`) is forwarded to the Responder's parser bracketed by
`set_busy(True)` before and `set_busy(False)` after, and neither the
session state nor the recorded in-flight destination address changes. -/
theorem listen_wait_query_busy_bracket (P : ServerOps σ)
    (m : MemoryAccess σ) (msg : Msg) (h : m.state = DMState.WAIT_QUERY) :
    (MemoryAccess.listen_for_dm14 P m msg).2 =
      [(DMState.WAIT_QUERY, Event.set_busy true),
        (DMState.WAIT_QUERY, Event.parse_dm14 msg),
        (DMState.WAIT_QUERY, Event.set_busy false)] ∧
    (MemoryAccess.listen_for_dm14 P m msg).1.state = m.state ∧
    (MemoryAccess.listen_for_dm14 P m msg).1.address = m.address ∧
    (MemoryAccess.listen_for_dm14 P m msg).1.server =
      P.set_busy (P.parse_dm14 (P.set_busy m.server true) msg) false := by
  simp [MemoryAccess.listen_for_dm14, h]

/-- Witness for C7: a coordinator waiting on a local query to `0x20`
services an inbound message with the busy bracket and keeps its state and
recorded address. -/
theorem listen_wait_query_busy_bracket_witness :
    (MemoryAccess.listen_for_dm14 serverOpsFalse
        { maAt DMState.WAIT_QUERY with address := some 0x20 } msg0).2 =
      [(DMState.WAIT_QUERY, Event.set_busy true),
        (DMState.WAIT_QUERY, Event.parse_dm14 msg0),
        (DMState.WAIT_QUERY, Event.set_busy false)] ∧
    (MemoryAccess.listen_for_dm14 serverOpsFalse
        { maAt DMState.WAIT_QUERY with address := some 0x20 }
        msg0).1.address = some 0x20 := by
  have h := listen_wait_query_busy_bracket serverOpsFalse
    { maAt DMState.WAIT_QUERY with address := some 0x20 } msg0 rfl
  exact ⟨h.1, h.2.2.1⟩

/-- C8: a `read` from `Idle` records `dest_address` as the in-flight
destination, invokes the Query Builder's `read` with all seven arguments
(the traced call is tagged `WAIT_QUERY`, the state entered first), returns
exactly the list the Query Builder returned, and ends in `Idle`. -/
theorem read_idle_passthrough (Q : QueryOps) (m : MemoryAccess σ)
    (h : m.state = DMState.IDLE)
    (dest_address direct address object_count object_byte_size : Nat)
    (signed return_raw_bytes : Bool) (data : List Int)
    (hq : Q.read dest_address direct address object_count object_byte_size
        signed return_raw_bytes = Except.ok data) :
    MemoryAccess.read Q m dest_address direct address object_count
        object_byte_size signed return_raw_bytes =
      ({ m with state := DMState.IDLE, address := some dest_address },
        [(DMState.WAIT_QUERY,
          Event.query_read dest_address direct address object_count
            object_byte_size signed return_raw_bytes)],
        Outcome.ok data) := by
  simp [MemoryAccess.read, h, hq]

/-- Witness for C8: the spec scenario — `read(dest=0x20, direct=0,
address=0x1000, object_count=4, object_byte_size=2)` from `Idle` with a
Query Builder returning `[10, 20, 30, 40]` yields `[10, 20, 30, 40]` and
ends in `Idle`. -/
theorem read_idle_passthrough_witness :
    MemoryAccess.read queryOpsOk (maAt DMState.IDLE)
        0x20 0 0x1000 4 2 false false =
      ({ maAt DMState.IDLE with
          state := DMState.IDLE, address := some 0x20 },
        [(DMState.WAIT_QUERY, Event.query_read 0x20 0 0x1000 4 2
          false false)],
        Outcome.ok [10, 20, 30, 40]) :=
  read_idle_passthrough queryOpsOk (maAt DMState.IDLE) rfl
    0x20 0 0x1000 4 2 false false [10, 20, 30, 40] rfl

/-- C9: with security disabled and the notify callback set, the trace of
the first inbound message in `Idle` is exactly parse, then unsubscribe,
then notify — so the callback fires only after the unsubscription, and
every entry (the notify included) is tagged with state `REQUEST_STARTED`,
which is also the state when the dispatch returns; the application's
subsequent `respond` therefore runs from `REQUEST_STARTED`, not
`WAIT_RESPONSE`. -/
theorem notify_after_unsubscribe_in_request_started (P : ServerOps σ)
    (m : MemoryAccess σ) (msg : Msg) (h1 : m.state = DMState.IDLE)
    (h2 : m.seed_security = false)
    (h3 : m.notify_query_received = true) :
    (MemoryAccess.listen_for_dm14 P m msg).2 =
      [(DMState.REQUEST_STARTED, Event.parse_dm14 msg),
        (DMState.REQUEST_STARTED, Event.unsubscribe),
        (DMState.REQUEST_STARTED, Event.notify)] ∧
    (MemoryAccess.listen_for_dm14 P m msg).1.state =
      DMState.REQUEST_STARTED := by
  simp [MemoryAccess.listen_for_dm14, h1, h2, h3]

/-- Witness for C9: the ordered trace on a fresh coordinator with the
notify callback installed. -/
theorem notify_after_unsubscribe_in_request_started_witness :
    (MemoryAccess.listen_for_dm14 serverOpsFalse
        (MemoryAccess.set_notify (MemoryAccess.init ())) msg0).2 =
      [(DMState.REQUEST_STARTED, Event.parse_dm14 msg0),
        (DMState.REQUEST_STARTED, Event.unsubscribe),
        (DMState.REQUEST_STARTED, Event.notify)] ∧
    (MemoryAccess.listen_for_dm14 serverOpsFalse
        (MemoryAccess.set_notify (MemoryAccess.init ())) msg0).1.state =
      DMState.REQUEST_STARTED :=
  notify_after_unsubscribe_in_request_started serverOpsFalse
    (MemoryAccess.set_notify (MemoryAccess.init ())) msg0 rfl rfl rfl

/-- C10: immediately after construction the coordinator is `Idle`,
subscribed to the Bus Endpoint, security is disabled, and the three
callback slots (`_notify_query_received`, `_seed_key_valid`,
`_proceed_function`) are unset. -/
theorem init_fields (σ : Type) (server0 : σ) :
    (MemoryAccess.init server0).state = DMState.IDLE ∧
    (MemoryAccess.init server0).subscribed = true ∧
    (MemoryAccess.init server0).seed_security = false ∧
    (MemoryAccess.init server0).notify_query_received = false ∧
    (MemoryAccess.init server0).seed_key_valid = false ∧
    (MemoryAccess.init server0).proceed_function = false :=
  ⟨rfl, rfl, rfl, rfl, rfl, rfl⟩
